import Mathlib

/-!
Verification of the registry-discovery and tunnel-relay subsystem of the
`m5stick-nanda` firmware (`src/firmware/m5stick-nanda/src/main.cpp`).

The C++ source is shallowly embedded: each function below mirrors one source
function, with the Arduino/ESP library calls (HTTP, mDNS, WebSocket, display,
speaker) replaced by explicit inputs/outputs.  Arduino `String` operations
(`indexOf`, `lastIndexOf`, `substring`, `startsWith`, `replace`, `toInt`) are
modelled over `List Char` with the same semantics (first-occurrence search,
left-to-right non-overlapping replacement, `atol`-style integer parsing).
C++ `int`/`long` values are modelled as `Int` (the firmware never approaches
32-bit wraparound in the quantities verified here), and `millis()` timestamps
as `Nat`.
-/

namespace NandaFirmware

/-! ## Arduino String primitives -/

/-- Index of the first occurrence of a character, as in Arduino
`String::indexOf(char)` (which returns -1 when absent; we use `Option`). -/
def charIdx (c : Char) : List Char → Option Nat
  | [] => none
  | a :: rest => if a = c then some 0 else (charIdx c rest).map (· + 1)

/-- Index of the last occurrence of a character, as in Arduino
`String::lastIndexOf(char)`. -/
def lastIdxOf (c : Char) : List Char → Option Nat
  | [] => none
  | a :: rest =>
    match lastIdxOf c rest with
    | some i => some (i + 1)
    | none => if a = c then some 0 else none

/-- Index of the first occurrence of a substring, as in Arduino
`String::indexOf(String)` (a `strstr` search). -/
def firstOccur (needle : List Char) : List Char → Option Nat
  | [] => if needle.isPrefixOf ([] : List Char) then some 0 else none
  | c :: rest =>
    if needle.isPrefixOf (c :: rest) then some 0
    else (firstOccur needle rest).map (· + 1)

/-- Accumulate the value of a leading run of decimal digits; stops at the
first non-digit, exactly as `atol` does after sign handling. -/
def digitsVal : List Char → Nat → Nat
  | [], acc => acc
  | c :: rest, acc =>
    if c.isDigit then digitsVal rest (acc * 10 + (c.toNat - 48)) else acc

/-- Arduino `String::toInt` is `atol`: skip leading whitespace, read an
optional sign, then a maximal run of digits; anything else yields 0.
Modelled on unbounded `Int` (no 32-bit truncation). -/
def atoi (l : List Char) : Int :=
  let t := l.dropWhile (fun c =>
    c == ' ' || c == '\t' || c == '\n' || c == '\r' ||
    c == Char.ofNat 11 || c == Char.ofNat 12)
  match t with
  | '-' :: rest => -(digitsVal rest 0 : Int)
  | '+' :: rest => (digitsVal rest 0 : Int)
  | _ => (digitsVal t 0 : Int)

/-- One fuel-indexed step list for Arduino `String::replace(find, repl)`:
scan left to right, replace each non-overlapping occurrence of `pat`, and
continue after the replaced text.  The wrapper passes `fuel = length`, which
is always sufficient because every step consumes at least one character. -/
def replaceAllFuel (pat repl : List Char) : Nat → List Char → List Char
  | _, [] => []
  | 0, s => s
  | fuel + 1, c :: rest =>
    if pat ≠ [] ∧ pat.isPrefixOf (c :: rest) then
      repl ++ replaceAllFuel pat repl fuel (rest.drop (pat.length - 1))
    else
      c :: replaceAllFuel pat repl fuel rest

/-- Arduino `String::replace(find, repl)` on whole strings.  With `repl = ""`
this removes every occurrence of `find`, which is how `connectTunnel` strips
URL schemes. -/
def strReplace (s find repl : String) : String :=
  ⟨replaceAllFuel find.data repl.data s.data.length s.data⟩

/-! ## Configuration constants (from the `#define` block) -/

/-- HEARTBEAT_INTERVAL: 30 seconds, in milliseconds. -/
def HEARTBEAT_INTERVAL : Nat := 30000

/-- TUNNEL_RECONNECT_INTERVAL: 10 seconds, in milliseconds. -/
def TUNNEL_RECONNECT_INTERVAL : Nat := 10000

/-- DEFAULT_REGISTRY_PORT: the well-known coordination port. -/
def DEFAULT_REGISTRY_PORT : Nat := 3000

/-! ## Registry Locator (`autoDetectRegistry`, lines 303-380)

The network is an explicit environment: the persisted preference slot, the
two mDNS query outcomes, the HTTP health-check responses, the gateway
address, and the public registry-list fetch outcome.  The locator's network
activity is returned as an explicit trace of calls, so that call-count
claims (C9) are statable. -/

/-- Environment seen by one `autoDetectRegistry` run. `mdnsPrimary` is the
URL built from a `nanda-registry/tcp` mDNS answer (empty when none),
`mdnsSecondary` the URL accepted by the heuristic `http/tcp` scan (empty
when no hostname contains "nanda"/"registry").  `health` gives the HTTP
status for a `GET <url>` health probe.  `publicCode`/`publicRegistries`
describe the fetch of the public registry list (`fetchPublicRegistry`). -/
structure LocatorEnv where
  savedRegistry : String
  mdnsPrimary : String
  mdnsSecondary : String
  health : String → Int
  gateway : String
  publicCode : Int
  publicRegistries : Option (List String)

/-- Network calls the locator can make, recorded as a trace. -/
inductive NetCall where
  | mdnsQuery (service : String)
  | healthGet (url : String)
  | remoteFetch
deriving DecidableEq

/-- Embedding of `discoverRegistryMDNS` (lines 274-301): first query the
dedicated `nanda-registry` service; only when that yields nothing, scan
generic `http` services for a recognizable hostname. -/
def discoverRegistryMDNS (env : LocatorEnv) : String × List NetCall :=
  if env.mdnsPrimary ≠ "" then
    (env.mdnsPrimary, [.mdnsQuery "nanda-registry"])
  else
    (env.mdnsSecondary, [.mdnsQuery "nanda-registry", .mdnsQuery "http"])

/-- Pure result of `fetchPublicRegistry` (lines 233-271): on HTTP 200 and a
parse that yields a non-empty `registries` array, the first entry's `url`
(defaulted to "" when missing); every failure path returns "". -/
def fetchPublicRegistryUrl (env : LocatorEnv) : String :=
  if env.publicCode = 200 then
    match env.publicRegistries with
    | some (u :: _) => u
    | _ => ""
  else ""

/-- Embedding of `gatewayStr.substring(0, gatewayStr.lastIndexOf('.'))`.
When there is no dot, Arduino `substring(0, -1)` returns the whole string
(the unsigned conversion clamps the right bound to the length). -/
def subnetOf (gateway : String) : String :=
  match lastIdxOf '.' gateway.data with
  | some i => ⟨gateway.data.take i⟩
  | none => gateway

/-- The fixed candidate list of the LAN probe sweep (lines 342-353), in
source order: gateway first, then the hard-coded last-octet conventions. -/
def registryCandidates (gateway : String) : List String :=
  let p := toString DEFAULT_REGISTRY_PORT
  let subnet := subnetOf gateway
  [ "http://" ++ gateway ++ ":" ++ p,
    "http://" ++ subnet ++ ".192:" ++ p,
    "http://" ++ subnet ++ ".100:" ++ p,
    "http://" ++ subnet ++ ".1:" ++ p,
    "http://" ++ subnet ++ ".104:" ++ p,
    "http://" ++ subnet ++ ".105:" ++ p,
    "http://" ++ subnet ++ ".102:" ++ p,
    "http://" ++ subnet ++ ".103:" ++ p,
    "http://" ++ subnet ++ ".10:" ++ p,
    "http://" ++ subnet ++ ".50:" ++ p ]

/-- Probe a candidate list in order with `GET <candidate>/health`, 2s
timeout; first 200 wins (loop at lines 356-367). -/
def probeList (health : String → Int) : List String → Option String × List NetCall
  | [] => (none, [])
  | c :: rest =>
    if health (c ++ "/health") = 200 then
      (some c, [.healthGet (c ++ "/health")])
    else
      let pr := probeList health rest
      (pr.1, .healthGet (c ++ "/health") :: pr.2)

/-- Embedding of `autoDetectRegistry` (lines 303-380).  Returns the chosen
registry URL together with the trace of network calls performed. -/
def autoDetectRegistry (env : LocatorEnv) : String × List NetCall :=
  if env.savedRegistry ≠ "" then
    (env.savedRegistry, [])
  else
    let m := (discoverRegistryMDNS env).1
    let t2 :=
      if m ≠ "" then (discoverRegistryMDNS env).2 ++ [.healthGet (m ++ "/health")]
      else (discoverRegistryMDNS env).2
    if m ≠ "" ∧ env.health (m ++ "/health") = 200 then
      (m, t2)
    else
      let pr := probeList env.health (registryCandidates env.gateway)
      match pr.1 with
      | some c => (c, t2 ++ pr.2)
      | none =>
        let t4 := t2 ++ pr.2 ++ [.remoteFetch]
        let pub := fetchPublicRegistryUrl env
        if pub ≠ "" then (pub, t4)
        else ("http://" ++ env.gateway ++ ":" ++ toString DEFAULT_REGISTRY_PORT, t4)

/-! ## Registration Client (`registerWithRegistry` / `sendHeartbeat`,
lines 382-441)

The globals `wifiConnected`, `registryConnected`, `heartbeatFailures` form
the state.  HTTP responses are explicit inputs (`httpCode`); the
`lastHeartbeat = millis()` timestamp update and serial logging are elided as
they feed nothing in this subsystem.  `sendHeartbeat` additionally reports
how many `registerWithRegistry` calls it made (0 or 1), so that
call-count claims are statable. -/

/-- Registration-relevant global state. -/
structure RegState where
  wifiConnected : Bool
  registryConnected : Bool
  heartbeatFailures : Nat
deriving DecidableEq

/-- Embedding of `registerWithRegistry` (lines 382-409): POST `/agents`;
200 or 201 sets `registryConnected` and clears the failure counter, any
other code changes nothing and returns false. -/
def registerWithRegistry (httpCode : Int) (s : RegState) : RegState × Bool :=
  if s.wifiConnected = false then (s, false)
  else if httpCode = 200 ∨ httpCode = 201 then
    ({ s with registryConnected := true, heartbeatFailures := 0 }, true)
  else (s, false)

/-- Embedding of `sendHeartbeat` (lines 411-441): no-op unless WiFi is up
and the client is registered; POST `/heartbeat`; 200 clears the counter;
otherwise increment it, and when it exceeds 3 drop to unregistered and
immediately attempt one re-registration (with response `regCode`).  The
third component counts the `registerWithRegistry` calls made. -/
def sendHeartbeat (hbCode regCode : Int) (s : RegState) : RegState × Bool × Nat :=
  if s.wifiConnected = false ∨ s.registryConnected = false then (s, false, 0)
  else if hbCode = 200 then ({ s with heartbeatFailures := 0 }, true, 0)
  else
    let s1 : RegState := { s with heartbeatFailures := s.heartbeatFailures + 1 }
    if s1.heartbeatFailures > 3 then
      ((registerWithRegistry regCode { s1 with registryConnected := false }).1, false, 1)
    else (s1, false, 0)

/-- Run `n` consecutive heartbeat ticks, each receiving `hbCode` for the
heartbeat POST and `regCode` for any re-registration POST; accumulates the
total number of `registerWithRegistry` calls. -/
def runHeartbeats (hbCode regCode : Int) : Nat → RegState → RegState × Nat
  | 0, s => (s, 0)
  | n + 1, s =>
    let (s1, _, c) := sendHeartbeat hbCode regCode s
    let (s2, cs) := runHeartbeats hbCode regCode n s1
    (s2, c + cs)

/-! ## Peer Directory (`discoverAgents`, lines 443-481)

The fetch of `GET <registry>/agents` is an explicit outcome: a non-200
status, a 200 with a JSON parse error, or a parsed list of agent objects
(each field optional, defaulted exactly as the `|` operators in the source;
a parsed document without an `agents` array behaves as `ok []`).  The
`lastDiscovery = millis()` update and logging are elided. -/

/-- One agent object of the parsed `agents` array; `none` models an absent
field, resolved by the source's `|` defaults. -/
structure AgentPayload where
  handle : Option String
  url : Option String
  name : Option String
  healthy : Option Bool
deriving DecidableEq

/-- Outcome of the `GET /agents` fetch. -/
inductive FetchOutcome where
  | httpError (code : Int)
  | parseError
  | ok (agents : List AgentPayload)
deriving DecidableEq

/-- One discovered-agent record (struct `DiscoveredAgent`, lines 109-114). -/
structure DiscoveredAgent where
  handle : String
  url : String
  name : String
  healthy : Bool
deriving DecidableEq

/-- Globals read and written by `discoverAgents`.  The snapshot is the
`discoveredAgents[0..discoveredAgentCount)` slice, modelled as a list. -/
structure AgentsState where
  wifiConnected : Bool
  registryConnected : Bool
  discoveredAgents : List DiscoveredAgent
deriving DecidableEq

/-- The fill loop of `discoverAgents` (lines 461-473): reset the count, then
walk the array in order, stopping once 10 records are stored, skipping the
device's own handle; `name` defaults to the handle, `healthy` to false. -/
def fillAgents (deviceHandle : String) : List AgentPayload → Nat → List DiscoveredAgent
  | [], _ => []
  | a :: rest, count =>
    if count ≥ 10 then []
    else
      let h := a.handle.getD ""
      if h = deviceHandle then fillAgents deviceHandle rest count
      else
        ⟨h, a.url.getD "", a.name.getD h, a.healthy.getD false⟩ ::
          fillAgents deviceHandle rest (count + 1)

/-- Embedding of `discoverAgents` (lines 443-481).  The Bool reports whether
the HTTP fetch was performed.  Note the guard tests only `wifiConnected`;
`registryConnected` is not consulted anywhere in the function. -/
def discoverAgents (st : AgentsState) (outcome : FetchOutcome) (deviceHandle : String) :
    AgentsState × Bool :=
  if st.wifiConnected = false then (st, false)
  else
    match outcome with
    | .ok agents => ({ st with discoveredAgents := fillAgents deviceHandle agents 0 }, true)
    | _ => (st, true)

/-! ## Local Request Executor (`processTunnelRequest`, lines 1128-1176)

The leaf handlers `getAgentCard`, `handleSensorsRead`, `handleButtonStatus`
and `handleBatteryStatus` read only device/sensor state, not the request, so
their JSON results are environment inputs; the same holds for the body
produced by `handleDisplayShow` for a given text (its rendering and sound
effects are presentation glue outside this subsystem).  `handleBuzzerTone`
and the routing itself are embedded concretely. -/

/-- Results of the request-independent leaf handlers, plus the
`handleDisplayShow` body as a function of the displayed text. -/
structure LocalHandlers where
  agentCard : String
  sensorsRead : String
  buttonStatus : String
  batteryStatus : String
  displayShow : String → String

/-- Result of one executor invocation: the `M5.Speaker.tone(freq, duration)`
calls it makes, and the JSON body it returns. -/
structure ExecResult where
  tones : List (Int × Int)
  body : String
deriving DecidableEq

/-- Escape one character as ArduinoJson's string serializer does. -/
def jsonEscapeChar (c : Char) : List Char :=
  if c = '"' then ['\\', '"']
  else if c = '\\' then ['\\', '\\']
  else if c = '\n' then ['\\', 'n']
  else if c = '\r' then ['\\', 'r']
  else if c = '\t' then ['\\', 't']
  else if c = Char.ofNat 8 then ['\\', 'b']
  else if c = Char.ofNat 12 then ['\\', 'f']
  else [c]

/-- Escape a whole string for embedding in a serialized JSON document. -/
def jsonEscape (s : String) : String :=
  ⟨(s.data.map jsonEscapeChar).flatten⟩

/-- Embedding of `handleBuzzerTone` (lines 1110-1121): play the tone and
return `serializeJson` of `{success, frequency, duration}` (insertion
order). -/
def handleBuzzerTone (freq duration : Int) : ExecResult :=
  ⟨[(freq, duration)],
    "\x7b\"success\":true,\"frequency\":" ++ toString freq ++
      ",\"duration\":" ++ toString duration ++ "\x7d"⟩

/-- The default 404 body of `processTunnelRequest` (lines 1170-1175):
`serializeJson` of `{error, path}` with the request path echoed. -/
def notFoundBody (path : String) : String :=
  "\x7b\"error\":\"Not found\",\"path\":\"" ++ jsonEscape path ++ "\"\x7d"

/-- The query-string extraction of the buzzer branch (lines 1145-1147):
`qPos = path.indexOf('?')`, and the text after it when `qPos > 0`. -/
def buzzerQuery (path : String) : List Char :=
  match charIdx '?' path.data with
  | some i => if 0 < i then path.data.drop (i + 1) else []
  | none => []

/-- Embedding of `processTunnelRequest` (lines 1128-1176): exact-path
routes first, then the prefix routes for buzzer and display, then the 404
default.  `method` and `body` are accepted and ignored, as in the source. -/
def processTunnelRequest (env : LocalHandlers) (_method path _body : String) : ExecResult :=
  if path = "/.well-known/agent.json" then ⟨[], env.agentCard⟩
  else if path = "/api/sensors" then ⟨[], env.sensorsRead⟩
  else if path = "/api/buttons" then ⟨[], env.buttonStatus⟩
  else if path = "/api/battery" then ⟨[], env.batteryStatus⟩
  else if "/api/buzzer".data.isPrefixOf path.data then
    let query := buzzerQuery path
    let freq : Int :=
      match firstOccur "freq=".data query with
      | some i => atoi (query.drop (i + 5))
      | none => 1000
    let duration : Int :=
      match firstOccur "duration=".data query with
      | some i => atoi (query.drop (i + 9))
      | none => 100
    handleBuzzerTone freq duration
  else if "/api/display".data.isPrefixOf path.data then
    match firstOccur "text=".data path.data with
    | some i =>
      if 0 < i then
        let text := strReplace ⟨path.data.drop (i + 5)⟩ "%20" " "
        ⟨[], env.displayShow text⟩
      else ⟨[], notFoundBody path⟩
    | none => ⟨[], notFoundBody path⟩
  else ⟨[], notFoundBody path⟩

/-! ## Tunnel Session (`webSocketEvent` / `connectTunnel` /
`sendTunnelHeartbeat`, lines 1178-1293) -/

/-- Fields of one parsed inbound tunnel message; `none` models an absent
field, resolved by the source's `|` defaults. -/
structure TunnelMsg where
  type : Option String
  id : Option String
  method : Option String
  path : Option String
  body : Option String
  handle : Option String

/-- One outbound framed response, as assembled at lines 1221-1230:
`{type:"response", id, status, headers:{Content-Type: ...}, body}`. -/
structure TunnelResponse where
  type : String
  id : String
  status : Nat
  contentTypeHeader : String
  body : String
deriving DecidableEq

/-- Transport events delivered to `webSocketEvent`; a TEXT payload carries
either a parsed message or `none` for a JSON parse error. -/
inductive WsEvent where
  | disconnected
  | connected
  | text (msg : Option TunnelMsg)
  | ping
  | pong
  | error

/-- The WStype_TEXT branch (lines 1190-1239): a parse error drops the
message; a `request` message is dispatched synchronously to
`processTunnelRequest` and answered with exactly one framed response echoing
the id, status 200 and a JSON content type; `connected` and `heartbeat_ack`
messages only log. -/
def textReplies (env : LocalHandlers) (msg : Option TunnelMsg) : List TunnelResponse :=
  match msg with
  | none => []
  | some m =>
    if m.type.getD "" = "request" then
      [⟨"response", m.id.getD "", 200, "application/json",
        (processTunnelRequest env (m.method.getD "GET") (m.path.getD "/")
          (m.body.getD "")).body⟩]
    else []

/-- Embedding of `webSocketEvent` (lines 1178-1257): the new value of the
`tunnelConnected` flag and the frames sent over the socket. -/
def webSocketEvent (env : LocalHandlers) (tunnelConnected : Bool) (ev : WsEvent) :
    Bool × List TunnelResponse :=
  match ev with
  | .disconnected => (false, [])
  | .connected => (true, [])
  | .text m => (tunnelConnected, textReplies env m)
  | .ping => (tunnelConnected, [])
  | .pong => (tunnelConnected, [])
  | .error => (false, [])

/-- Host/port derivation of `connectTunnel` (lines 1262-1269): remove every
`http://` and `https://` occurrence, take `colonPos = url.indexOf(':')`
(the FIRST colon), split there when `colonPos > 0`, else keep the whole
string as host with port 80. -/
def tunnelTarget (registryUrl : String) : String × Int :=
  let u1 := strReplace registryUrl "http://" ""
  let u := (strReplace u1 "https://" "").data
  let colonPos : Int :=
    match charIdx ':' u with
    | some i => (i : Int)
    | none => -1
  let host := if colonPos > 0 then u.take colonPos.toNat else u.take u.length
  let port : Int := if colonPos > 0 then atoi (u.drop (colonPos.toNat + 1)) else 80
  (⟨host⟩, port)

/-- Connection parameters passed to the WebSocket client by `connectTunnel`:
target host/port/path, `setReconnectInterval(5000)`, and
`enableHeartbeat(15000, 3000, 2)` (the transport-level ping keepalive). -/
structure TunnelConnectParams where
  host : String
  port : Int
  path : String
  reconnectIntervalMs : Nat
  keepaliveIntervalMs : Nat
  keepaliveTimeoutMs : Nat
  keepaliveMaxMissed : Nat
deriving DecidableEq

/-- Embedding of `connectTunnel` (lines 1259-1281): no-op without WiFi or
with an empty registry URL; otherwise open `<host>:<port>/tunnel?handle=<h>`
with the fixed reconnect and keepalive configuration. -/
def connectTunnel (wifiConnected : Bool) (registryUrl deviceHandle : String) :
    Option TunnelConnectParams :=
  if wifiConnected = false ∨ registryUrl = "" then none
  else
    let hp := tunnelTarget registryUrl
    some ⟨hp.1, hp.2, "/tunnel?handle=" ++ deviceHandle, 5000, 15000, 3000, 2⟩

/-- The outbound JSON heartbeat message `{type:"heartbeat", handle}`. -/
structure HBMsg where
  type : String
  handle : String
deriving DecidableEq

/-- Embedding of `sendTunnelHeartbeat` (lines 1283-1293): nothing is sent
unless the tunnel is connected. -/
def sendTunnelHeartbeat (tunnelConnected : Bool) (deviceHandle : String) : Option HBMsg :=
  if tunnelConnected then some ⟨"heartbeat", deviceHandle⟩ else none

/-! ## Control-loop timers (`loop`, lines 1930-1944) -/

/-- Result of the periodic-heartbeat block of `loop` (lines 1930-1936):
whether the REST heartbeat was POSTed, the tunnel heartbeat message sent (if
any), and the updated `lastHeartbeatTime`. -/
structure HeartbeatTick where
  restSent : Bool
  tunnelMsg : Option HBMsg
  lastHeartbeatTime : Nat
deriving DecidableEq

/-- Embedding of the periodic-heartbeat block: one `if` guarded by WiFi and
the single shared `HEARTBEAT_INTERVAL` timer calls `sendHeartbeat()` (which
POSTs only when additionally registered) and `sendTunnelHeartbeat()` (which
sends only when the tunnel is connected), then stamps the timer. -/
def loopHeartbeatStep (wifi registered tunnel : Bool) (deviceHandle : String)
    (now lastHb : Nat) : HeartbeatTick :=
  if wifi = true ∧ now - lastHb > HEARTBEAT_INTERVAL then
    ⟨registered, sendTunnelHeartbeat tunnel deviceHandle, now⟩
  else ⟨false, none, lastHb⟩

/-- Inputs of one control-loop iteration relevant to the tunnel-reconnect
check: the clock and the three connectivity flags. -/
structure LoopTick where
  now : Nat
  wifiConnected : Bool
  registryConnected : Bool
  tunnelConnected : Bool
deriving DecidableEq

/-- Embedding of the reconnect block of `loop` (lines 1938-1944): attempt
`connectTunnel()` only when WiFi is up, the client is registered, the tunnel
is down, and more than `TUNNEL_RECONNECT_INTERVAL` ms have passed since
`lastTunnelCheck`; an attempt stamps the timer. -/
def tunnelReconnectCheck (t : LoopTick) (lastCheck : Nat) : Bool × Nat :=
  if t.wifiConnected = true ∧ t.registryConnected = true ∧ t.tunnelConnected = false ∧
      t.now - lastCheck > TUNNEL_RECONNECT_INTERVAL then
    (true, t.now)
  else (false, lastCheck)

/-- Run the reconnect check over a sequence of loop iterations, returning
the iterations at which a reconnect attempt fires. -/
def runReconnects : List LoopTick → Nat → List LoopTick
  | [], _ => []
  | t :: rest, lastCheck =>
    let (fired, lc) := tunnelReconnectCheck t lastCheck
    if fired then t :: runReconnects rest lc else runReconnects rest lc

/-! ## Specification-side definitions

These two definitions follow the WORDS of the specification/claim about the
tunnel host/port derivation, for comparison with the source-derived
`tunnelTarget`.  They are not translations of the C++ code. -/

/-- Spec wording, claim C7: "stripping the scheme prefix" (a prefix strip,
as opposed to the source's remove-every-occurrence). -/
def stripScheme (u : String) : String :=
  if "http://".data.isPrefixOf u.data then ⟨u.data.drop 7⟩
  else if "https://".data.isPrefixOf u.data then ⟨u.data.drop 8⟩
  else u

/-- Spec wording, claim C7: "splitting the remainder on the LAST colon to
obtain host and port, defaulting the port to 80 when no colon is
present". -/
def lastColonHostPort (url : String) : String × Int :=
  let u := (stripScheme url).data
  match lastIdxOf ':' u with
  | some i => (⟨u.take i⟩, atoi (u.drop (i + 1)))
  | none => (stripScheme url, 80)

/-- Amended wording for claim C7: split on the FIRST colon (what
`url.indexOf(':')` finds), defaulting the port to 80 when none is
present. -/
def firstColonHostPort (u : String) : String × Int :=
  match charIdx ':' u.data with
  | some i => (⟨u.data.take i⟩, atoi (u.data.drop (i + 1)))
  | none => (u, 80)

/-! ## Concrete fixtures used by witness and counterexample theorems -/

/-- A locator environment with a persisted registry endpoint. -/
def envSaved : LocatorEnv :=
  ⟨"http://10.0.0.5:3000", "", "", fun _ => 404, "192.168.1.1", 500, none⟩

/-- A locator environment in which every discovery strategy fails: nothing
persisted, no mDNS answers, every health probe refused, public list fetch
failing. -/
def envAllFail : LocatorEnv :=
  ⟨"", "", "", fun _ => -1, "192.168.1.1", 500, none⟩

/-- A stub Local Request Executor environment. -/
def stubHandlers : LocalHandlers :=
  ⟨"card", "sensors", "buttons", "\x7b\"percent\":88\x7d", fun _ => "shown"⟩

/-- A sample relayed request message with all fields present. -/
def sampleRequest : TunnelMsg :=
  ⟨some "request", some "r1", some "GET", some "/api/battery", some "", none⟩

/-- A parsed `/agents` payload with one foreign peer (used to exhibit that a
refresh while unregistered is not a no-op). -/
def peerFetchSample : FetchOutcome :=
  .ok [⟨some "peer-1", some "http://10.0.0.9", none, some true⟩]

/-- A parsed `/agents` payload listing the device's own handle and one
foreign peer. -/
def peerFetchWithSelf : FetchOutcome :=
  .ok [⟨some "m5stick-abc", some "http://self", none, some true⟩,
       ⟨some "x", some "u", none, some true⟩]

/-! ## Helper lemmas -/

/-- Heartbeat ticks while unregistered are no-ops: the state is unchanged
and no re-registration is attempted. -/
theorem runHeartbeats_unregistered (hb rc : Int) (k : Nat) (s : RegState)
    (h : s.registryConnected = false) : runHeartbeats hb rc k s = (s, 0) := by
  induction k with
  | zero => rfl
  | succ n ih => simp [runHeartbeats, sendHeartbeat, h, ih]

/-- When every candidate's health probe fails, the sweep selects nothing. -/
theorem probeList_fail (health : String → Int) (l : List String)
    (h : ∀ c ∈ l, health (c ++ "/health") ≠ 200) :
    (probeList health l).1 = none := by
  induction l with
  | nil => rfl
  | cons c rest ih =>
    have hc := h c (by simp)
    simp only [probeList, if_neg hc]
    exact ih fun x hx => h x (by simp [hx])

/-! ## Claim theorems -/

/-- Claim C9: when a persisted endpoint exists in the preference slot,
`autoDetectRegistry` returns it immediately and the network-call trace is
empty — no health probe, no mDNS query, no remote fetch — and nothing else
is produced or changed. -/
theorem c9_locate_persisted (env : LocatorEnv) (h : env.savedRegistry ≠ "") :
    autoDetectRegistry env = (env.savedRegistry, []) := by
  simp [autoDetectRegistry, h]

/-- Witness for C9 at a concrete environment with a saved endpoint. -/
theorem c9_witness : autoDetectRegistry envSaved = ("http://10.0.0.5:3000", []) :=
  c9_locate_persisted envSaved (by decide)

/-- Counterexample to claim C4 as stated: with WiFi connected but the
device NOT registered (`registryConnected = false`), `discoverAgents` still
performs the fetch and replaces the snapshot — it is not a no-op. -/
theorem c4_counterexample :
    (discoverAgents ⟨true, false, []⟩ peerFetchSample "m5stick-abc").2 = true ∧
    (discoverAgents ⟨true, false, []⟩ peerFetchSample "m5stick-abc").1.discoveredAgents ≠
      [] := by
  decide

/-- Claim C4 amended: a peer-directory refresh is a no-op (no fetch, state
unchanged) exactly when WiFi is disconnected; the registration state is not
consulted — with WiFi connected the fetch is performed even while
unregistered. -/
theorem c4_refresh_wifi_guard (st : AgentsState) (outcome : FetchOutcome) (dh : String) :
    (st.wifiConnected = false → discoverAgents st outcome dh = (st, false)) ∧
    (st.wifiConnected = true → (discoverAgents st outcome dh).2 = true) := by
  constructor
  · intro h
    simp [discoverAgents, h]
  · intro h
    cases outcome <;> simp [discoverAgents, h]

/-- Witness for C4 (amended) at a concrete un-WiFi-ed state. -/
theorem c4_witness :
    discoverAgents ⟨false, true, []⟩ FetchOutcome.parseError "m5stick-abc" =
      (⟨false, true, []⟩, false) :=
  (c4_refresh_wifi_guard ⟨false, true, []⟩ FetchOutcome.parseError "m5stick-abc").1 rfl

/-- Counterexample to claim C2 as stated: starting from REGISTERED with the
counter at 0, after exactly 3 consecutive heartbeat failures the client is
STILL registered (`heartbeatFailures > 3` is false at 3) and no `register()`
call has been made; the claimed REGISTERED→DEGRADED transition with one
re-registration has not happened. -/
theorem c2_counterexample :
    (runHeartbeats 500 500 3 ⟨true, true, 0⟩).1.registryConnected = true ∧
    (runHeartbeats 500 500 3 ⟨true, true, 0⟩).2 = 0 := by
  decide

/-- Claim C2 amended: the DEGRADED transition fires when the failure counter
EXCEEDS 3, i.e. on the 4th consecutive heartbeat failure, not the 3rd.
After 3 failures the client is still REGISTERED with counter 3 and no
`register()` call; on the 4th failure (register also failing)
`registryConnected` drops to false and exactly one `register()` call is made
in total, for any number of further heartbeat ticks; a heartbeat success or
a registration success resets the counter to 0. -/
theorem c2_heartbeat_threshold (hbCode regCode : Int)
    (hhb : hbCode ≠ 200) (hr1 : regCode ≠ 200) (hr2 : regCode ≠ 201) :
    runHeartbeats hbCode regCode 3 ⟨true, true, 0⟩ = (⟨true, true, 3⟩, 0) ∧
    (∀ k, runHeartbeats hbCode regCode (k + 4) ⟨true, true, 0⟩ = (⟨true, false, 4⟩, 1)) ∧
    (∀ s : RegState, s.wifiConnected = true → s.registryConnected = true →
      (sendHeartbeat 200 regCode s).1.heartbeatFailures = 0) ∧
    (∀ s : RegState, s.wifiConnected = true →
      (registerWithRegistry 200 s).1.heartbeatFailures = 0 ∧
      (registerWithRegistry 200 s).1.registryConnected = true) := by
  refine ⟨?_, ?_, ?_, ?_⟩
  · simp [runHeartbeats, sendHeartbeat, registerWithRegistry, hhb, hr1, hr2]
  · intro k
    induction k with
    | zero =>
      simp [runHeartbeats, sendHeartbeat, registerWithRegistry, hhb, hr1, hr2]
    | succ n ih =>
      simp [runHeartbeats, sendHeartbeat, registerWithRegistry, hhb, hr1, hr2,
        runHeartbeats_unregistered]
  · intro s hw hr
    simp [sendHeartbeat, hw, hr]
  · intro s hw
    simp [registerWithRegistry, hw]

/-- Witness for C2 (amended) with concrete failing response codes. -/
theorem c2_witness :
    runHeartbeats 500 404 (0 + 4) ⟨true, true, 0⟩ = (⟨true, false, 4⟩, 1) :=
  (c2_heartbeat_threshold 500 404 (by decide) (by decide) (by decide)).2.1 0

/-- The fill loop stores at most `10 - count` further records. -/
theorem fillAgents_length_le (dh : String) (l : List AgentPayload) (c : Nat) :
    (fillAgents dh l c).length ≤ 10 - c := by
  induction l generalizing c with
  | nil => simp [fillAgents]
  | cons a rest ih =>
    by_cases hc : c ≥ 10
    · simp [fillAgents, hc]
    · by_cases hh : a.handle.getD "" = dh
      · simpa [fillAgents, hc, hh] using ih c
      · have := ih (c + 1)
        simp only [fillAgents, if_neg hc, if_neg hh, List.length_cons]
        omega

/-- The fill loop never stores a record with the device's own handle. -/
theorem fillAgents_ne_own (dh : String) (l : List AgentPayload) (c : Nat) :
    ∀ r ∈ fillAgents dh l c, r.handle ≠ dh := by
  induction l generalizing c with
  | nil => simp [fillAgents]
  | cons a rest ih =>
    intro r hr
    by_cases hc : c ≥ 10
    · simp [fillAgents, hc] at hr
    · by_cases hh : a.handle.getD "" = dh
      · exact ih c r (by simpa [fillAgents, hc, hh] using hr)
      · simp only [fillAgents, if_neg hc, if_neg hh, List.mem_cons] at hr
        rcases hr with rfl | hr
        · exact hh
        · exact ih (c + 1) r hr

/-- Claim C5: a successful, parsed fetch replaces the snapshot wholesale
with a list computed only from the payload and the device's own handle
(independent of the previous snapshot), containing no record with the own
handle and at most 10 entries; a non-200 response or a parse error leaves
the whole state unchanged. -/
theorem c5_peer_snapshot (wifi reg : Bool) (snap : List DiscoveredAgent)
    (outcome : FetchOutcome) (dh : String) :
    (∀ agents, wifi = true → outcome = .ok agents →
      (discoverAgents ⟨wifi, reg, snap⟩ outcome dh).1.discoveredAgents =
          fillAgents dh agents 0 ∧
        (∀ r ∈ (discoverAgents ⟨wifi, reg, snap⟩ outcome dh).1.discoveredAgents,
          r.handle ≠ dh) ∧
        (discoverAgents ⟨wifi, reg, snap⟩ outcome dh).1.discoveredAgents.length ≤ 10) ∧
    (∀ code, outcome = .httpError code →
      (discoverAgents ⟨wifi, reg, snap⟩ outcome dh).1 = ⟨wifi, reg, snap⟩) ∧
    (outcome = .parseError →
      (discoverAgents ⟨wifi, reg, snap⟩ outcome dh).1 = ⟨wifi, reg, snap⟩) := by
  refine ⟨?_, ?_, ?_⟩
  · rintro agents hw rfl
    refine ⟨by simp [discoverAgents, hw], ?_, ?_⟩
    · intro r hr
      refine fillAgents_ne_own dh agents 0 r ?_
      simpa [discoverAgents, hw] using hr
    · have h10 := fillAgents_length_le dh agents 0
      simpa [discoverAgents, hw] using h10
  · rintro code rfl
    by_cases hw : wifi = true <;> simp [discoverAgents, hw]
  · rintro rfl
    by_cases hw : wifi = true <;> simp [discoverAgents, hw]

/-- Witness for C5: the record kept from a concrete payload that also lists
the device itself does not carry the device's own handle. -/
theorem c5_witness : (⟨"x", "u", "x", true⟩ : DiscoveredAgent).handle ≠ "m5stick-abc" :=
  ((c5_peer_snapshot true true [] peerFetchWithSelf "m5stick-abc").1
    [⟨some "m5stick-abc", some "http://self", none, some true⟩,
     ⟨some "x", some "u", none, some true⟩] rfl rfl).2.1
    ⟨"x", "u", "x", true⟩ (by decide)

/-- A reconnect attempt fires only strictly more than the reconnect
interval after the stamped `lastTunnelCheck`. -/
theorem runReconnects_head_gt (ticks : List LoopTick) (lc : Nat) :
    ∀ t ∈ (runReconnects ticks lc).head?, lc + TUNNEL_RECONNECT_INTERVAL < t.now := by
  induction ticks generalizing lc with
  | nil => simp [runReconnects]
  | cons t rest ih =>
    by_cases hc : t.wifiConnected = true ∧ t.registryConnected = true ∧
        t.tunnelConnected = false ∧ t.now - lc > TUNNEL_RECONNECT_INTERVAL
    · intro x hx
      simp [runReconnects, tunnelReconnectCheck, hc] at hx
      subst hx
      omega
    · intro x hx
      refine ih lc x ?_
      simpa [runReconnects, tunnelReconnectCheck, hc] using hx

/-- Claim C6: over any sequence of control-loop iterations, every tunnel
reconnect attempt happens while WiFi is up, the client is REGISTERED and
the tunnel is DISCONNECTED (in particular never while unregistered), and
two consecutive attempts are always strictly more than
`TUNNEL_RECONNECT_INTERVAL` (10 s) apart. -/
theorem c6_reconnect_throttle (ticks : List LoopTick) (lc : Nat) :
    (∀ t ∈ runReconnects ticks lc,
      t.wifiConnected = true ∧ t.registryConnected = true ∧
        t.tunnelConnected = false) ∧
    List.Chain' (fun a b => a.now + TUNNEL_RECONNECT_INTERVAL < b.now)
      (runReconnects ticks lc) := by
  induction ticks generalizing lc with
  | nil => simp [runReconnects]
  | cons t rest ih =>
    by_cases hc : t.wifiConnected = true ∧ t.registryConnected = true ∧
        t.tunnelConnected = false ∧ t.now - lc > TUNNEL_RECONNECT_INTERVAL
    · have hrun : runReconnects (t :: rest) lc = t :: runReconnects rest t.now := by
        simp [runReconnects, tunnelReconnectCheck, hc]
      rw [hrun]
      constructor
      · intro x hx
        rcases List.mem_cons.mp hx with rfl | hx
        · exact ⟨hc.1, hc.2.1, hc.2.2.1⟩
        · exact (ih t.now).1 x hx
      · refine List.chain'_cons'.mpr ⟨runReconnects_head_gt rest t.now, (ih t.now).2⟩
    · have hrun : runReconnects (t :: rest) lc = runReconnects rest lc := by
        simp [runReconnects, tunnelReconnectCheck, hc]
      rw [hrun]
      exact ih lc

/-- Witness for C6: the single attempt of a concrete run happened in the
registered state. -/
theorem c6_witness : (⟨20000, true, true, false⟩ : LoopTick).registryConnected = true :=
  ((c6_reconnect_throttle [⟨20000, true, true, false⟩] 0).1
    ⟨20000, true, true, false⟩ (by decide)).2.1

/-- Counterexample to claim C8 as stated: 20 s after the last emission — by
which time a 15-second cadence would have fired — no tunnel heartbeat
message is sent; and when it is sent (at 40 s) it coincides with the REST
heartbeat, because both are driven by the same single 30-second timer. -/
theorem c8_counterexample :
    (loopHeartbeatStep true true true "m5stick-abc" 20000 0).tunnelMsg = none ∧
    (loopHeartbeatStep true true true "m5stick-abc" 40000 0).tunnelMsg =
      some ⟨"heartbeat", "m5stick-abc"⟩ ∧
    (loopHeartbeatStep true true true "m5stick-abc" 40000 0).restSent = true := by
  decide

/-- Claim C8 amended: the outbound `{type:"heartbeat", handle}` message is
driven by the SAME 30-second loop timer as the REST heartbeat, not by an
independent 15-second cadence: it is sent exactly when WiFi is up, the
tunnel is connected, and the shared `HEARTBEAT_INTERVAL` timer has expired,
and whenever it is sent the REST heartbeat is POSTed in the same iteration
(when registered).  The 15 s / 3 s / 2-miss values configure the
transport-level WebSocket ping (`enableHeartbeat`), not this message. -/
theorem c8_heartbeat_same_timer (wifi reg tun : Bool) (dh : String) (now lastHb : Nat) :
    ((loopHeartbeatStep wifi reg tun dh now lastHb).tunnelMsg.isSome =
      (wifi && tun && decide (now - lastHb > HEARTBEAT_INTERVAL))) ∧
    ((loopHeartbeatStep wifi reg tun dh now lastHb).tunnelMsg.isSome = true →
      (loopHeartbeatStep wifi reg tun dh now lastHb).restSent = reg) := by
  by_cases hg : wifi = true ∧ now - lastHb > HEARTBEAT_INTERVAL
  · cases tun <;> simp [loopHeartbeatStep, sendTunnelHeartbeat, hg, hg.1, hg.2]
  · have : (loopHeartbeatStep wifi reg tun dh now lastHb) = ⟨false, none, lastHb⟩ := by
      simp [loopHeartbeatStep, hg]
    rw [this]
    cases wifi <;> cases tun <;> simp_all

/-- Witness for C8 (amended) at a concrete expired-timer state. -/
theorem c8_witness :
    (loopHeartbeatStep true true true "m5stick-abc" 40000 0).restSent = true :=
  (c8_heartbeat_same_timer true true true "m5stick-abc" 40000 0).2 (by decide)

/-- Claim C1: a parsed inbound `request` message with all of id, method,
path and body present, received while the tunnel is connected, is forwarded
to the Local Request Executor and answered by exactly one framed response
`{type:"response", id:<echoed>, status:200,
headers:{Content-Type:"application/json"}, body:<executor result>}`, with
the connection flag unchanged. -/
theorem c1_request_response (env : LocalHandlers) (tc : Bool) (m : TunnelMsg)
    (i me p b : String) (htc : tc = true) (ht : m.type = some "request")
    (hi : m.id = some i) (hm : m.method = some me) (hp : m.path = some p)
    (hb : m.body = some b) :
    webSocketEvent env tc (.text (some m)) =
      (true, [⟨"response", i, 200, "application/json",
        (processTunnelRequest env me p b).body⟩]) := by
  subst htc
  simp [webSocketEvent, textReplies, ht, hi, hm, hp, hb]

/-- Witness for C1: a concrete battery request through a stub executor is
answered once, with the id echoed and the stub's body. -/
theorem c1_witness :
    webSocketEvent stubHandlers true (.text (some sampleRequest)) =
      (true, [⟨"response", "r1", 200, "application/json", "\x7b\"percent\":88\x7d"⟩]) :=
  c1_request_response stubHandlers true sampleRequest "r1" "GET" "/api/battery" ""
    rfl rfl rfl rfl rfl rfl

/-- Claim C3: with nothing persisted, no usable mDNS answer, every candidate
probe failing and the public-list fetch failing, the locator still
terminates with the unconditional fallback — the gateway address on the
well-known coordination port — which is a non-empty URL. -/
theorem c3_locate_fallback (env : LocatorEnv)
    (hsaved : env.savedRegistry = "")
    (hmdns : (discoverRegistryMDNS env).1 = "" ∨
      env.health ((discoverRegistryMDNS env).1 ++ "/health") ≠ 200)
    (hprobe : ∀ c ∈ registryCandidates env.gateway, env.health (c ++ "/health") ≠ 200)
    (hpub : fetchPublicRegistryUrl env = "") :
    (autoDetectRegistry env).1 =
      "http://" ++ env.gateway ++ ":" ++ toString DEFAULT_REGISTRY_PORT ∧
    (autoDetectRegistry env).1 ≠ "" := by
  have hpl : (probeList env.health (registryCandidates env.gateway)).1 = none :=
    probeList_fail env.health _ hprobe
  have hcond : ¬((discoverRegistryMDNS env).1 ≠ "" ∧
      env.health ((discoverRegistryMDNS env).1 ++ "/health") = 200) := by
    rcases hmdns with h | h
    · exact fun hx => hx.1 h
    · exact fun hx => h hx.2
  have hres : (autoDetectRegistry env).1 =
      "http://" ++ env.gateway ++ ":" ++ toString DEFAULT_REGISTRY_PORT := by
    simp [autoDetectRegistry, hsaved, hcond, hpl, hpub]
  refine ⟨hres, ?_⟩
  rw [hres]
  intro hemp
  have hd := congrArg String.data hemp
  simp only [String.data_append] at hd
  simp [List.append_eq_nil] at hd

/-- Witness for C3: a concrete environment in which every strategy fails
resolves to the gateway on port 3000. -/
theorem c3_witness :
    (autoDetectRegistry envAllFail).1 =
      "http://" ++ "192.168.1.1" ++ ":" ++ toString DEFAULT_REGISTRY_PORT :=
  (c3_locate_fallback envAllFail rfl (Or.inl rfl)
    (fun c _ => by simp [envAllFail]) (by decide)).1

/-- A pattern that occurs nowhere in the haystack is never replaced,
whatever the fuel. -/
theorem replaceAllFuel_no_occur (pat repl : List Char) (fuel : Nat) (hay : List Char)
    (h : firstOccur pat hay = none) : replaceAllFuel pat repl fuel hay = hay := by
  induction fuel generalizing hay with
  | zero => cases hay <;> rfl
  | succ n ih =>
    cases hay with
    | nil => rfl
    | cons c rest =>
      rw [firstOccur] at h
      by_cases hp : pat.isPrefixOf (c :: rest) = true
      · simp [hp] at h
      · simp [hp, Option.map_eq_none'] at h
        rw [replaceAllFuel]
        simp [hp, ih rest h]

/-- A list is a prefix of itself followed by anything. -/
theorem isPrefixOf_self_append (l t : List Char) : l.isPrefixOf (l ++ t) = true := by
  induction l with
  | nil => simp [List.isPrefixOf]
  | cons a as ih => simp [List.isPrefixOf, ih]

/-- Removing every occurrence of a non-empty pattern from `pat ++ rest`,
when the pattern occurs nowhere in `rest`, yields `rest`. -/
theorem replaceAllFuel_strip (pat rest : List Char) (hne : pat ≠ [])
    (h : firstOccur pat rest = none) :
    replaceAllFuel pat [] (pat ++ rest).length (pat ++ rest) = rest := by
  cases pat with
  | nil => exact absurd rfl hne
  | cons p ps =>
    show replaceAllFuel (p :: ps) [] ((ps ++ rest).length + 1) (p :: (ps ++ rest)) = rest
    rw [replaceAllFuel]
    have hpre : (p :: ps).isPrefixOf (p :: (ps ++ rest)) = true :=
      isPrefixOf_self_append (p :: ps) rest
    simp only [ne_eq, reduceCtorEq, not_false_eq_true, hpre, and_self, if_true,
      List.nil_append, List.length_cons, Nat.add_sub_cancel]
    rw [List.drop_left]
    exact replaceAllFuel_no_occur _ _ _ _ h

/-- A character found at index 0 is the head. -/
theorem charIdx_zero_head (c : Char) (l : List Char) (h : charIdx c l = some 0) :
    l.head? = some c := by
  cases l with
  | nil => simp [charIdx] at h
  | cons a rest =>
    by_cases ha : a = c
    · simp [ha]
    · simp only [charIdx, if_neg ha, Option.map_eq_some'] at h
      obtain ⟨j, _, hj⟩ := h
      omega

/-- Counterexample to claim C7 as stated: on a URL whose remainder holds two
colons, the source splits at the FIRST colon (`url.indexOf(':')`), giving
host "h" and port 1, while the claimed last-colon rule gives host "h:1" and
port 2. -/
theorem c7_counterexample :
    tunnelTarget "http://h:1:2" = ("h", 1) ∧
    lastColonHostPort "http://h:1:2" = ("h:1", 2) ∧
    tunnelTarget "http://h:1:2" ≠ lastColonHostPort "http://h:1:2" := by
  decide

/-- Claim C7 amended: for a RegistryEndpoint URL of the form
`"http://" ++ rest` where the remainder contains no further scheme marker
and does not begin with a colon, the tunnel target is obtained by stripping
the scheme and splitting on the FIRST colon (port 80 when no colon is
present), and `connectTunnel` opens that host/port at the fixed
`/tunnel?handle=<handle>` path. -/
theorem c7_first_colon (rest deviceHandle : String)
    (h1 : firstOccur "http://".data rest.data = none)
    (h2 : firstOccur "https://".data rest.data = none)
    (h3 : rest.data.head? ≠ some ':') :
    tunnelTarget ("http://" ++ rest) = firstColonHostPort rest ∧
    connectTunnel true ("http://" ++ rest) deviceHandle =
      some ⟨(firstColonHostPort rest).1, (firstColonHostPort rest).2,
        "/tunnel?handle=" ++ deviceHandle, 5000, 15000, 3000, 2⟩ := by
  have hu1 : strReplace ("http://" ++ rest) "http://" "" = ⟨rest.data⟩ := by
    show (⟨replaceAllFuel "http://".data "".data ("http://" ++ rest).data.length
      ("http://" ++ rest).data⟩ : String) = ⟨rest.data⟩
    rw [String.data_append]
    exact congrArg String.mk (replaceAllFuel_strip "http://".data rest.data
      (by decide) h1)
  have hu2 : strReplace ⟨rest.data⟩ "https://" "" = ⟨rest.data⟩ :=
    congrArg String.mk (replaceAllFuel_no_occur "https://".data "".data _ _ h2)
  have htt : tunnelTarget ("http://" ++ rest) = firstColonHostPort rest := by
    simp only [tunnelTarget, hu1, hu2]
    cases hc : charIdx ':' rest.data with
    | none =>
      simp only [hc, firstColonHostPort, List.take_length]
      norm_num
    | some i =>
      have hi : 0 < i := by
        rcases Nat.eq_zero_or_pos i with rfl | h
        · exact absurd (charIdx_zero_head ':' rest.data hc) h3
        · exact h
      have hip : ((i : Int) > 0) := by exact_mod_cast hi
      simp [hc, firstColonHostPort, hip, Int.toNat_ofNat]
  refine ⟨htt, ?_⟩
  have hne : ("http://" ++ rest) ≠ "" := by
    intro hemp
    have hd := congrArg String.data hemp
    rw [String.data_append] at hd
    simp [List.append_eq_nil] at hd
  simp [connectTunnel, hne, htt]

/-- Witness for C7 (amended) at a concrete LAN registry URL. -/
theorem c7_witness :
    tunnelTarget ("http://" ++ "192.168.1.50:3000") =
      firstColonHostPort "192.168.1.50:3000" :=
  (c7_first_colon "192.168.1.50:3000" "m5stick-abc" (by decide) (by decide)
    (by decide)).1

/-- Claim C10: a tunnel-relayed request whose path starts with
"/api/buzzer" and whose query string contains neither a "freq=" nor a
"duration=" parameter plays a tone at the default frequency 1000 for the
default duration 100 and returns the JSON body reporting success with those
defaults. -/
theorem c10_buzzer_defaults (env : LocalHandlers) (method path body : String)
    (hpre : "/api/buzzer".data.isPrefixOf path.data = true)
    (hfreq : firstOccur "freq=".data (buzzerQuery path) = none)
    (hdur : firstOccur "duration=".data (buzzerQuery path) = none) :
    processTunnelRequest env method path body =
      ⟨[(1000, 100)],
        "\x7b\"success\":true,\"frequency\":1000,\"duration\":100\x7d"⟩ := by
  have h1 : path ≠ "/.well-known/agent.json" := by
    rintro rfl; exact absurd hpre (by decide)
  have h2 : path ≠ "/api/sensors" := by
    rintro rfl; exact absurd hpre (by decide)
  have h3 : path ≠ "/api/buttons" := by
    rintro rfl; exact absurd hpre (by decide)
  have h4 : path ≠ "/api/battery" := by
    rintro rfl; exact absurd hpre (by decide)
  simp only [processTunnelRequest, if_neg h1, if_neg h2, if_neg h3, if_neg h4, hpre,
    if_true, hfreq, hdur]
  decide

/-- Witness for C10: a bare "/api/buzzer" request yields the defaults. -/
theorem c10_witness :
    processTunnelRequest stubHandlers "GET" "/api/buzzer" "" =
      ⟨[(1000, 100)],
        "\x7b\"success\":true,\"frequency\":1000,\"duration\":100\x7d"⟩ :=
  c10_buzzer_defaults stubHandlers "GET" "/api/buzzer" "" (by decide) (by decide)
    (by decide)

end NandaFirmware
